import Mathlib

/-!
Verification of the path-reconstruction core of `xplane_apt_convert`.

The definitions below are a shallow embedding of the Python source:

* `src/xplane_apt_convert/iterators.py` — the pushback iterator `BIterator`;
* `src/xplane_apt_convert/geometry.py` — the Bezier evaluators and the
  chain reconstructor `get_paths` with its inner helpers `_start_segment`,
  `_finish_segment` and `_process_row`;
* `src/xplane_apt_convert/classes.py` — the list filters applied by
  `Boundary.from_row_iterator` and `LinearFeature.from_row_iterator` to the
  output of `get_paths`.

Modelling conventions:

* Python floats are modelled as exact rationals (`ℚ`); record tokens are
  modelled as already-parsed numbers (`List ℚ`), so `float(...)` / `int(...)`
  conversions are identities.  String-to-number parse failures are therefore
  out of the model; out-of-range list indexing, the only malformation the
  embedded inputs can exhibit, is modelled faithfully.
* Python exceptions are modelled with `Except PyErr`; the constructors of
  `PyErr` stand for `IndexError("list index out of range")` (list
  subscripting), the `IndexError` raised by `BIterator.unnext`, and the
  `TypeError` a bad-arity `_calculate_bezier(*nodes)` call would raise.
* `numpy.linspace(0.0, 1.0, n)` is modelled by `linspace01`, and the
  `bezier` library curve sampling by exact Bernstein evaluation over `ℚ`.
* The `while more_segments` loop and the inner `for row in row_iterator`
  loop of `get_paths` are modelled with explicit fuel; `none` means the
  fuel ran out, `some` carries the Python result (value or exception).
-/

/-- Decidable equality for `Except`, needed to evaluate the embedded
functions on concrete inputs. -/
instance {ε α : Type} [DecidableEq ε] [DecidableEq α] : DecidableEq (Except ε α) := fun x y =>
  match x, y with
  | Except.ok a, Except.ok b =>
    if h : a = b then isTrue (h ▸ rfl) else isFalse (fun hh => h (Except.ok.inj hh))
  | Except.error a, Except.error b =>
    if h : a = b then isTrue (h ▸ rfl) else isFalse (fun hh => h (Except.error.inj hh))
  | Except.ok _, Except.error _ => isFalse (fun h => Except.noConfusion h)
  | Except.error _, Except.ok _ => isFalse (fun h => Except.noConfusion h)

/-- Python exceptions reachable in the embedded code: the `IndexError`
raised by list subscripting, the `IndexError` raised by `BIterator.unnext`
(source message: Cant go back any further), and the `TypeError` raised by a
bad-arity call of `_calculate_bezier`. -/
inductive PyErr where
  | index_error_out_of_range : PyErr
  | index_error_go_back : PyErr
  | type_error : PyErr
  deriving DecidableEq, Repr

/-- A coordinate pair, in `(longitude, latitude)` order as used by the
reconstructed paths. -/
abbrev Point : Type := ℚ × ℚ

/-- The six row codes dispatched by `get_paths` (geometry.py:195-216) plus
`OTHER` for any unrelated row (the final `else` branch). -/
inductive RowCode where
  | LINE_SEGMENT | LINE_CURVE | RING_SEGMENT | RING_CURVE
  | END_SEGMENT | END_CURVE | OTHER
  deriving DecidableEq, Repr

/-- An input record: a row code and its (pre-parsed, numeric) tokens.
`tokens[0]` is the row code number itself; geometry rows carry latitude and
longitude at `tokens[1]`, `tokens[2]`. -/
structure Row where
  row_code : RowCode
  tokens : List ℚ
  deriving DecidableEq, Repr

/-- `row.row_code in [RowCode.LINE_CURVE, RowCode.RING_CURVE, RowCode.END_CURVE]`
(geometry.py:186-190). -/
def row_is_bezier (c : RowCode) : Bool :=
  c = RowCode.LINE_CURVE || c = RowCode.RING_CURVE || c = RowCode.END_CURVE

/-- The pushback iterator of iterators.py: a sequence and an index of the
most recently returned element, starting at `-1`. -/
structure BIterator (α : Type) where
  seq : List α
  idx : Int
  deriving DecidableEq, Repr

/-- `BIterator.__next__` (iterators.py:9-16): increment the index; if it
runs past the end, restore it and raise `StopIteration` — modelled as
`none`, with the caller keeping the unchanged iterator. -/
def bnext {α : Type} (it : BIterator α) : Option (α × BIterator α) :=
  if it.idx + 1 < (it.seq.length : Int) then
    match it.seq.get? (it.idx + 1).toNat with
    | some a => some (a, ⟨it.seq, it.idx + 1⟩)
    | none => none
  else
    none

/-- `BIterator.unnext` (iterators.py:18-23): decrement the index; if it
would fall below `-1`, restore it and raise `IndexError`. -/
def unnext {α : Type} (it : BIterator α) : Except PyErr (BIterator α) :=
  if it.idx - 1 < -1 then Except.error PyErr.index_error_go_back
  else Except.ok ⟨it.seq, it.idx - 1⟩

/-- `BIterator.has_next` (iterators.py:25-26). -/
def has_next {α : Type} (it : BIterator α) : Bool :=
  it.idx < (it.seq.length : Int) - 1

/-- Python list subscripting `tokens[i]` for a non-negative literal index:
raises `IndexError` when the index is out of range. -/
def tokAt (tokens : List ℚ) (i : Nat) : Except PyErr ℚ :=
  match tokens.get? i with
  | some v => Except.ok v
  | none => Except.error PyErr.index_error_out_of_range

/-- `_DEFAULT_BEZIER_RESOLUTION = 16` (geometry.py:5). -/
def _DEFAULT_BEZIER_RESOLUTION : Nat := 16

/-- `numpy.linspace(0.0, 1.0, num)`: `num` evenly spaced parameter values
inclusive of both endpoints (`[]` for `num = 0`, `[0]` for `num = 1`). -/
def linspace01 (num : Nat) : List ℚ :=
  if num ≤ 1 then List.replicate num 0
  else (List.range num).map (fun k : Nat => (k : ℚ) / ((num : ℚ) - 1))

/-- Quadratic Bernstein evaluation at parameter `t`, componentwise; this is
the curve sampled by `bezier.curve.Curve.evaluate_multi` for 3 nodes. -/
def bezier_point_quad (p0 p1 p2 : Point) (t : ℚ) : Point :=
  ((1 - t)^2 * p0.1 + 2*(1 - t)*t * p1.1 + t^2 * p2.1,
   (1 - t)^2 * p0.2 + 2*(1 - t)*t * p1.2 + t^2 * p2.2)

/-- Cubic Bernstein evaluation at parameter `t`, componentwise; this is the
curve sampled by `bezier.curve.Curve.evaluate_multi` for 4 nodes. -/
def bezier_point_cubic (p0 p1 p2 p3 : Point) (t : ℚ) : Point :=
  ((1 - t)^3 * p0.1 + 3*(1 - t)^2*t * p1.1 + 3*(1 - t)*t^2 * p2.1 + t^3 * p3.1,
   (1 - t)^3 * p0.2 + 3*(1 - t)^2*t * p1.2 + 3*(1 - t)*t^2 * p2.2 + t^3 * p3.2)

/-- `_calculate_quadratic_bezier` (geometry.py:8-15): short-circuit to a
single point when the endpoints coincide, otherwise sample the curve at
`resolution` evenly spaced parameters. -/
def _calculate_quadratic_bezier (p0 p1 p2 : Point) (resolution : Nat) : List Point :=
  if p0 = p2 then [p0]
  else (linspace01 resolution).map (bezier_point_quad p0 p1 p2)

/-- `_calculate_cubic_bezier` (geometry.py:18-25). -/
def _calculate_cubic_bezier (p0 p1 p2 p3 : Point) (resolution : Nat) : List Point :=
  if p0 = p3 then [p0]
  else (linspace01 resolution).map (bezier_point_cubic p0 p1 p2 p3)

/-- `_calculate_bezier` (geometry.py:28-32), called with `*nodes`: 3 nodes
select the quadratic form, 4 the cubic form; any other arity would raise a
`TypeError` in Python (never reached from `get_paths`). -/
def _calculate_bezier (nodes : List Point) (resolution : Nat) : Except PyErr (List Point) :=
  match nodes with
  | [p0, p1, p2] => Except.ok (_calculate_quadratic_bezier p0 p1 p2 resolution)
  | [p0, p1, p2, p3] => Except.ok (_calculate_cubic_bezier p0 p1 p2 p3 resolution)
  | _ => Except.error PyErr.type_error

/-- The `properties` dict accumulated per segment: the two optional keys it
can ever hold (geometry.py:101-105, 165-169). -/
structure Props where
  painted_line_type : Option ℚ
  lighting_line_type : Option ℚ
  deriving DecidableEq, Repr

/-- The empty `properties` dict. -/
def Props.empty : Props := ⟨none, none⟩

/-- The mutable state threaded through one `get_paths` call: the iterator,
the per-segment accumulator (`coordinates`, `properties`), the pending
Bezier control nodes and flag, and the output lists. -/
structure GPState where
  it : BIterator Row
  coordinates : List Point
  properties : Props
  temp_bezier_nodes : List Point
  in_bezier : Bool
  coordinates_list : List (List Point)
  properties_list : List Props
  deriving DecidableEq, Repr

/-- The state at entry of `get_paths` (geometry.py:40-41, 171-172). -/
def init_state (it : BIterator Row) : GPState :=
  { it := it, coordinates := [], properties := Props.empty,
    temp_bezier_nodes := [], in_bezier := false,
    coordinates_list := [], properties_list := [] }

/-- `_start_segment` (geometry.py:43-46): reset the accumulator. -/
def _start_segment (s : GPState) : GPState :=
  { s with coordinates := [], properties := Props.empty }

/-- The consecutive-duplicate filter of `_finish_segment`
(geometry.py:52-60): `prev` is `prev_c`, updated only when a point is kept
(on a skip the previous point is equal to the skipped one anyway). -/
def dedup_consecutive : Option Point → List Point → List Point
  | _, [] => []
  | some p, c :: rest =>
    if c = p then dedup_consecutive (some p) rest
    else c :: dedup_consecutive (some c) rest
  | none, c :: rest => c :: dedup_consecutive (some c) rest

/-- `_finish_segment` (geometry.py:48-63): only when the raw accumulated
list has more than one point, append the deduplicated list and the
accumulated properties to the output lists. -/
def _finish_segment (s : GPState) : GPState :=
  if 1 < s.coordinates.length then
    { s with coordinates_list := s.coordinates_list ++ [dedup_consecutive none s.coordinates],
             properties_list := s.properties_list ++ [s.properties] }
  else s

/-- Reconstruction mode: the `mode` argument of `get_paths`. -/
inductive Mode where
  | line | polygon
  deriving DecidableEq, Repr

/-- The trigger of the attribute-split branch (geometry.py:85-94 and
149-158): some attribute is present on the record, already recorded in the
accumulator, and the two values differ. -/
abbrev split_condition (painted_line_type lighting_line_type : Option ℚ) (props : Props) : Prop :=
  (painted_line_type ≠ none ∧ props.painted_line_type ≠ none ∧
     painted_line_type ≠ props.painted_line_type) ∨
  (lighting_line_type ≠ none ∧ props.lighting_line_type ≠ none ∧
     lighting_line_type ≠ props.lighting_line_type)

/-- The merge arm of the attribute handling block (geometry.py:100-105 and
164-169): each attribute present on the record overwrites the recorded one,
absent attributes leave it untouched.  The two sequential dict writes of
the source are combined into one record build. -/
def merge_props (painted_line_type lighting_line_type : Option ℚ) (props : Props) : Props :=
  Props.mk
    (match painted_line_type with
     | some v => some v
     | none => props.painted_line_type)
    (match lighting_line_type with
     | some v => some v
     | none => props.lighting_line_type)

/-- The attribute handling block of `_process_row`, written out twice in
the source (geometry.py:84-105 for straight rows, geometry.py:148-169 for
curve rows) with identical text: split the segment (only in line mode, only
when the iterator has a further row), or merge the new values in.
`_finish_segment` and `_start_segment` leave the iterator untouched, so
`unnext` is applied directly to `s.it`. -/
def applySplitOrMerge (mode : Mode) (painted_line_type lighting_line_type : Option ℚ)
    (s : GPState) : Except PyErr GPState :=
  if mode = Mode.line ∧ split_condition painted_line_type lighting_line_type s.properties then
    if has_next s.it then
      match unnext s.it with
      | Except.error e => Except.error e
      | Except.ok it2 => Except.ok { _start_segment (_finish_segment s) with it := it2 }
    else
      Except.ok s
  else
    Except.ok { s with properties := merge_props painted_line_type lighting_line_type s.properties }

/-- `_process_row` (geometry.py:65-169).  Straight rows (`is_bezier =
false`) either complete a pending curve continuation — note the source
calls `_calculate_bezier` WITHOUT the resolution argument here
(geometry.py:72-74, marked `TODO: pass resolution argument`), so the module
default 16 is used — or append the point directly.  Curve rows mirror the
stored control point about the anchor and either complete a pending cubic,
start a quadratic from the last accumulated point, or just store the
pending nodes.  Both branches end with the attribute split/merge block. -/
def _process_row (mode : Mode) (bezier_resolution : Nat) (is_bezier : Bool)
    (tokens : List ℚ) (s : GPState) : Except PyErr GPState :=
  match tokAt tokens 1 with
  | Except.error e => Except.error e
  | Except.ok lat =>
    match tokAt tokens 2 with
    | Except.error e => Except.error e
    | Except.ok lon =>
      match is_bezier with
      | false =>
        match
          (if s.in_bezier then
            match _calculate_bezier (s.temp_bezier_nodes ++ [(lon, lat)]) _DEFAULT_BEZIER_RESOLUTION with
            | Except.error e => Except.error e
            | Except.ok pts =>
              Except.ok { s with coordinates := s.coordinates ++ pts, temp_bezier_nodes := [] }
          else
            Except.ok { s with coordinates := s.coordinates ++ [(lon, lat)] } : Except PyErr GPState)
        with
        | Except.error e => Except.error e
        | Except.ok s1 =>
          applySplitOrMerge mode
            (if 3 < tokens.length then tokens.get? 3 else none)
            (if 4 < tokens.length then tokens.get? 4 else none)
            { s1 with in_bezier := false }
      | true =>
        match tokAt tokens 3 with
        | Except.error e => Except.error e
        | Except.ok bzp_lat =>
          match tokAt tokens 4 with
          | Except.error e => Except.error e
          | Except.ok bzp_lon =>
            match
              (if s.in_bezier then
                match _calculate_bezier
                    (s.temp_bezier_nodes ++
                      [(lon - (bzp_lon - lon), lat - (bzp_lat - lat)), (lon, lat)])
                    bezier_resolution with
                | Except.error e => Except.error e
                | Except.ok pts =>
                  Except.ok { s with coordinates := s.coordinates ++ pts, temp_bezier_nodes := [] }
              else
                match s.coordinates.getLast? with
                | some lastc =>
                  match _calculate_bezier
                      [lastc, (lon - (bzp_lon - lon), lat - (bzp_lat - lat)), (lon, lat)]
                      bezier_resolution with
                  | Except.error e => Except.error e
                  | Except.ok pts =>
                    Except.ok { s with coordinates := s.coordinates ++ pts, temp_bezier_nodes := [] }
                | none => Except.ok s : Except PyErr GPState)
            with
            | Except.error e => Except.error e
            | Except.ok s1 =>
              applySplitOrMerge mode
                (if 5 < tokens.length then tokens.get? 5 else none)
                (if 6 < tokens.length then tokens.get? 6 else none)
                { s1 with temp_bezier_nodes := s1.temp_bezier_nodes ++ [(lon, lat), (bzp_lon, bzp_lat)],
                          in_bezier := true }

/-- `first_row` and `first_row_is_bezier` for the current loop iteration
(geometry.py:184-190): remembered from the first iteration of the chain,
or set from the current row when this is the first iteration. -/
def first_row_info (first : Option (Row × Bool)) (row : Row) : Row × Bool :=
  match first with
  | none => (row, row_is_bezier row.row_code)
  | some f => f

/-- The `for row in row_iterator` loop of one chain (geometry.py:183-219),
with explicit fuel.  `first` carries `first_row` and `first_row_is_bezier`
once set.  The returned `Bool` is the value of `more_segments` when the
loop is left: `false` from the unrelated-row branch and from iterator
exhaustion (the `for`-`else`), `true` from every `break` after a ring or
end row. -/
def chain_loop (mode : Mode) (bezier_resolution : Nat) :
    Nat → Option (Row × Bool) → GPState → Option (Except PyErr (GPState × Bool))
  | 0, _, _ => none
  | Nat.succ fuel, first, s =>
    match bnext s.it with
    | none => some (Except.ok (s, false))
    | some (row, it2) =>
      match row.row_code with
      | RowCode.LINE_SEGMENT =>
        match _process_row mode bezier_resolution false row.tokens { s with it := it2 } with
        | Except.error e => some (Except.error e)
        | Except.ok s => chain_loop mode bezier_resolution fuel (some (first_row_info first row)) s
      | RowCode.LINE_CURVE =>
        match _process_row mode bezier_resolution true row.tokens { s with it := it2 } with
        | Except.error e => some (Except.error e)
        | Except.ok s => chain_loop mode bezier_resolution fuel (some (first_row_info first row)) s
      | RowCode.RING_SEGMENT =>
        match _process_row mode bezier_resolution false row.tokens { s with it := it2 } with
        | Except.error e => some (Except.error e)
        | Except.ok s =>
          match _process_row mode bezier_resolution (first_row_info first row).2
              (first_row_info first row).1.tokens s with
          | Except.error e => some (Except.error e)
          | Except.ok s => some (Except.ok (s, true))
      | RowCode.RING_CURVE =>
        match _process_row mode bezier_resolution true row.tokens { s with it := it2 } with
        | Except.error e => some (Except.error e)
        | Except.ok s =>
          match _process_row mode bezier_resolution (first_row_info first row).2
              (first_row_info first row).1.tokens s with
          | Except.error e => some (Except.error e)
          | Except.ok s => some (Except.ok (s, true))
      | RowCode.END_SEGMENT =>
        match _process_row mode bezier_resolution false row.tokens { s with it := it2 } with
        | Except.error e => some (Except.error e)
        | Except.ok s => some (Except.ok (s, true))
      | RowCode.END_CURVE =>
        match _process_row mode bezier_resolution true row.tokens { s with it := it2 } with
        | Except.error e => some (Except.error e)
        | Except.ok s => some (Except.ok (s, true))
      | RowCode.OTHER =>
        match unnext it2 with
        | Except.error e => some (Except.error e)
        | Except.ok it3 => some (Except.ok ({ s with it := it3 }, false))

/-- The `while more_segments` loop of `get_paths` (geometry.py:175-221),
with explicit fuel: reset the pending-curve state, start a fresh segment,
run one chain, finish the segment, and iterate while `more_segments`. -/
def while_loop (mode : Mode) (bezier_resolution : Nat) (chain_fuel : Nat) :
    Nat → GPState → Option (Except PyErr GPState)
  | 0, _ => none
  | Nat.succ fuel, s =>
    match chain_loop mode bezier_resolution chain_fuel none
        (_start_segment { s with temp_bezier_nodes := [], in_bezier := false }) with
    | none => none
    | some (Except.error e) => some (Except.error e)
    | some (Except.ok (s1, more_segments)) =>
      if more_segments then while_loop mode bezier_resolution chain_fuel fuel (_finish_segment s1)
      else some (Except.ok (_finish_segment s1))

/-- `get_paths` (geometry.py:35-224): run the chain reconstruction over the
iterator and return the parallel output lists.  The source ends with
`assert len(coordinates_list) == len(properties_list)`; the assertion is
not encoded here — that it can never fail is proved below. -/
def get_paths (row_iterator : BIterator Row) (bezier_resolution : Nat) (mode : Mode)
    (fuel : Nat) : Option (Except PyErr (List (List Point) × List Props)) :=
  match while_loop mode bezier_resolution fuel fuel (init_state row_iterator) with
  | none => none
  | some (Except.error e) => some (Except.error e)
  | some (Except.ok s) => some (Except.ok (s.coordinates_list, s.properties_list))

/-- The filter `[c for c in coordinates_list if len(c) > 2]` applied by
`Boundary.from_row_iterator` (classes.py:220) and `Pavement.from_row_iterator`
(classes.py:270) to the polygon-mode output of `get_paths`. -/
def boundary_coordinates_list (cs : List (List Point)) : List (List Point) :=
  cs.filter (fun c => 2 < c.length)

/-- The comprehension `[p for c, p in zip(coordinates_list, properties_list)
if len(c) > 2]` of classes.py:221-223, which zips the ALREADY filtered
coordinate list against the unfiltered properties list. -/
def boundary_properties_list (cs : List (List Point)) (ps : List Props) : List Props :=
  (((boundary_coordinates_list cs).zip ps).filter (fun cp => 2 < cp.1.length)).map (fun cp => cp.2)

/-- The line-mode pairing of `LinearFeature.from_row_iterator`
(classes.py:339-350): one feature per (coordinates, properties) pair with
`len(coordinates) > 1`. -/
def linear_feature_paths (cs : List (List Point)) (ps : List Props) : List (List Point × Props) :=
  (cs.zip ps).filter (fun cp => 1 < cp.1.length)

/-- The painted-line-type attribute carried by a record, as read by
`_process_row`: token 3 for straight rows, token 5 for curve rows, absent
when the token list is too short. -/
def painted_token (is_bezier : Bool) (tokens : List ℚ) : Option ℚ :=
  match is_bezier with
  | false => if 3 < tokens.length then tokens.get? 3 else none
  | true => if 5 < tokens.length then tokens.get? 5 else none

/-- The lighting-line-type attribute carried by a record, as read by
`_process_row`: token 4 for straight rows, token 6 for curve rows. -/
def lighting_token (is_bezier : Bool) (tokens : List ℚ) : Option ℚ :=
  match is_bezier with
  | false => if 4 < tokens.length then tokens.get? 4 else none
  | true => if 6 < tokens.length then tokens.get? 6 else none

/-- How one successful `_process_row` call can change the two output lists:
either both are untouched, or `_finish_segment` appended one deduplicated
coordinate list and one properties value to them. -/
def StepLists (s s2 : GPState) : Prop :=
  (s2.coordinates_list = s.coordinates_list ∧ s2.properties_list = s.properties_list) ∨
  (∃ c p, s2.coordinates_list = s.coordinates_list ++ [dedup_consecutive none c] ∧
          s2.properties_list = s.properties_list ++ [p])

/-- Invariant of the reconstruction state: the output lists run in
parallel, and every emitted coordinate list is free of consecutive
duplicates. -/
def ListsInv (s : GPState) : Prop :=
  s.coordinates_list.length = s.properties_list.length ∧
  ∀ c ∈ s.coordinates_list, List.Chain' (fun a b => a ≠ b) c

/-- Tokens too short for the row kind: straight rows need latitude and
longitude at indices 1 and 2; curve rows additionally need the control
point at indices 3 and 4. -/
def insufficient_tokens (c : RowCode) (tokens : List ℚ) : Prop :=
  c ≠ RowCode.OTHER ∧
  (if row_is_bezier c then tokens.length ≤ 4 else tokens.length ≤ 2)

theorem linspace01_length (num : Nat) : (linspace01 num).length = num := by
  unfold linspace01
  split
  · simp
  · rw [List.length_map, List.length_range]

theorem _calculate_quadratic_bezier_ne_nil (p0 p1 p2 : Point) (resolution : Nat)
    (hres : 0 < resolution) : _calculate_quadratic_bezier p0 p1 p2 resolution ≠ [] := by
  unfold _calculate_quadratic_bezier
  split
  · simp
  · intro h
    have := congrArg List.length h
    simp [linspace01_length] at this
    omega

theorem _calculate_cubic_bezier_ne_nil (p0 p1 p2 p3 : Point) (resolution : Nat)
    (hres : 0 < resolution) : _calculate_cubic_bezier p0 p1 p2 p3 resolution ≠ [] := by
  unfold _calculate_cubic_bezier
  split
  · simp
  · intro h
    have := congrArg List.length h
    simp [linspace01_length] at this
    omega

theorem _calculate_bezier_ok_ne_nil (nodes : List Point) (resolution : Nat)
    (pts : List Point) (hres : 0 < resolution)
    (h : _calculate_bezier nodes resolution = Except.ok pts) : pts ≠ [] := by
  unfold _calculate_bezier at h
  split at h
  · cases h
    exact _calculate_quadratic_bezier_ne_nil _ _ _ _ hres
  · cases h
    exact _calculate_cubic_bezier_ne_nil _ _ _ _ _ hres
  · cases h

theorem linspace01_head (num : Nat) (h : 1 ≤ num) : (linspace01 num).head? = some 0 := by
  unfold linspace01
  by_cases hc : num ≤ 1
  · rw [if_pos hc]
    have h1 : num = 1 := by omega
    subst h1
    rfl
  · rw [if_neg hc, List.head?_map]
    have hr : (List.range num).head? = some 0 := by
      cases num with
      | zero => omega
      | succ m => rw [List.range_succ_eq_map]; rfl
    rw [hr]
    simp

theorem linspace01_getLast (num : Nat) (h : 2 ≤ num) : (linspace01 num).getLast? = some 1 := by
  unfold linspace01
  rw [if_neg (by omega)]
  rw [List.getLast?_map]
  have hr : (List.range num).getLast? = some (num - 1) := by
    have h1 : num = (num - 1) + 1 := by omega
    rw [h1, List.range_succ]
    simp
  rw [hr]
  simp only [Option.map_some']
  congr 1
  have hne : ((num : ℚ) - 1) ≠ 0 := by
    have h2 : (2:ℚ) ≤ (num : ℚ) := by exact_mod_cast h
    intro hcon
    nlinarith
  rw [Nat.cast_sub (by omega)]
  simp [div_self, hne]

theorem bezier_point_cubic_zero (p0 p1 p2 p3 : Point) : bezier_point_cubic p0 p1 p2 p3 0 = p0 := by
  unfold bezier_point_cubic
  norm_num

theorem bezier_point_cubic_one (p0 p1 p2 p3 : Point) : bezier_point_cubic p0 p1 p2 p3 1 = p3 := by
  unfold bezier_point_cubic
  norm_num

theorem _calculate_cubic_bezier_head (p0 p1 p2 p3 : Point) (resolution : Nat)
    (h : 1 ≤ resolution) : (_calculate_cubic_bezier p0 p1 p2 p3 resolution).head? = some p0 := by
  unfold _calculate_cubic_bezier
  split
  · rfl
  · rw [List.head?_map, linspace01_head resolution h]
    simp [bezier_point_cubic_zero]

theorem _calculate_cubic_bezier_getLast (p0 p1 p2 p3 : Point) (resolution : Nat)
    (h : 2 ≤ resolution) : (_calculate_cubic_bezier p0 p1 p2 p3 resolution).getLast? = some p3 := by
  unfold _calculate_cubic_bezier
  split
  · rename_i heq
    rw [heq]
    rfl
  · rw [List.getLast?_map, linspace01_getLast resolution h]
    simp [bezier_point_cubic_one]

theorem dedup_consecutive_head_ne (l : List Point) :
    ∀ (p x : Point), (dedup_consecutive (some p) l).head? = some x → x ≠ p := by
  induction l with
  | nil => intro p x hx; simp [dedup_consecutive] at hx
  | cons c rest ih =>
    intro p x hx
    rw [dedup_consecutive] at hx
    by_cases hc : c = p
    · rw [if_pos hc] at hx
      exact ih p x hx
    · rw [if_neg hc] at hx
      simp at hx
      exact hx ▸ hc

theorem dedup_consecutive_chain (l : List Point) :
    ∀ (prev : Option Point), List.Chain' (fun a b => a ≠ b) (dedup_consecutive prev l) := by
  induction l with
  | nil => intro prev; cases prev <;> simp [dedup_consecutive]
  | cons c rest ih =>
    intro prev
    cases prev with
    | none =>
      rw [dedup_consecutive]
      rw [List.chain'_cons']
      refine ⟨?_, ih (some c)⟩
      intro y hy
      exact (dedup_consecutive_head_ne rest c y hy).symm
    | some p =>
      rw [dedup_consecutive]
      by_cases hc : c = p
      · rw [if_pos hc]; exact ih (some p)
      · rw [if_neg hc]
        rw [List.chain'_cons']
        refine ⟨?_, ih (some c)⟩
        intro y hy
        exact (dedup_consecutive_head_ne rest c y hy).symm

theorem StepLists.of_eq_lists {s mid s2 : GPState}
    (hc : mid.coordinates_list = s.coordinates_list)
    (hp : mid.properties_list = s.properties_list)
    (h : StepLists mid s2) : StepLists s s2 := by
  unfold StepLists at h ⊢
  rw [hc, hp] at h
  exact h

theorem StepLists.inv {s s2 : GPState} (h : StepLists s s2) (hi : ListsInv s) : ListsInv s2 := by
  rcases h with ⟨hc, hp⟩ | ⟨c, p, hc, hp⟩
  · exact ⟨by rw [hc, hp]; exact hi.1, by rw [hc]; exact hi.2⟩
  · constructor
    · rw [hc, hp]; simp [hi.1]
    · intro x hx
      rw [hc] at hx
      rcases List.mem_append.mp hx with hx | hx
      · exact hi.2 x hx
      · rw [List.mem_singleton.mp hx]
        exact dedup_consecutive_chain c none

theorem finish_segment_step (s : GPState) : StepLists s (_finish_segment s) := by
  unfold _finish_segment StepLists
  split
  · right; exact ⟨s.coordinates, s.properties, rfl, rfl⟩
  · left; exact ⟨rfl, rfl⟩

theorem StepLists.congr_right {s s2 s3 : GPState}
    (hc : s3.coordinates_list = s2.coordinates_list)
    (hp : s3.properties_list = s2.properties_list)
    (h : StepLists s s2) : StepLists s s3 := by
  unfold StepLists at h ⊢
  rw [hc, hp]
  exact h

theorem applySplitOrMerge_step (mode : Mode) (p l : Option ℚ) (s s2 : GPState)
    (h : applySplitOrMerge mode p l s = Except.ok s2) : StepLists s s2 := by
  unfold applySplitOrMerge at h
  split at h
  · split at h
    · split at h
      · exact Except.noConfusion h
      · cases h
        exact StepLists.congr_right rfl rfl (finish_segment_step s)
    · cases h
      exact Or.inl ⟨rfl, rfl⟩
  · cases h
    exact Or.inl ⟨rfl, rfl⟩

theorem process_row_geom (mode : Mode) (bres : Nat) (ib : Bool) (toks : List ℚ) (s s2 : GPState)
    (h : _process_row mode bres ib toks s = Except.ok s2) :
    ∃ mid : GPState,
      applySplitOrMerge mode (painted_token ib toks) (lighting_token ib toks) mid = Except.ok s2 ∧
      mid.properties = s.properties ∧
      mid.it = s.it ∧
      mid.coordinates_list = s.coordinates_list ∧
      mid.properties_list = s.properties_list ∧
      (∃ pts : List Point, mid.coordinates = s.coordinates ++ pts ∧
        (0 < bres → s.coordinates ≠ [] → pts ≠ [])) := by
  unfold _process_row at h
  split at h
  · exact Except.noConfusion h
  · split at h
    · exact Except.noConfusion h
    · split at h
      · -- straight row
        split at h
        · exact Except.noConfusion h
        · rename_i s1 heq
          split at heq
          · split at heq
            · exact Except.noConfusion heq
            · rename_i pts hcalc
              cases heq
              refine ⟨_, h, rfl, rfl, rfl, rfl, ⟨pts, rfl, ?_⟩⟩
              intro _ _
              exact _calculate_bezier_ok_ne_nil _ _ _ (by decide) hcalc
          · cases heq
            exact ⟨_, h, rfl, rfl, rfl, rfl, ⟨_, rfl, fun _ _ => by simp⟩⟩
      · -- curve row
        split at h
        · exact Except.noConfusion h
        · split at h
          · exact Except.noConfusion h
          · split at h
            · exact Except.noConfusion h
            · rename_i s1 heq
              split at heq
              · split at heq
                · exact Except.noConfusion heq
                · rename_i pts hcalc
                  cases heq
                  refine ⟨_, h, rfl, rfl, rfl, rfl, ⟨pts, rfl, ?_⟩⟩
                  intro hbres _
                  exact _calculate_bezier_ok_ne_nil _ _ _ hbres hcalc
              · split at heq
                · rename_i lastc hlast
                  split at heq
                  · exact Except.noConfusion heq
                  · rename_i pts hcalc
                    cases heq
                    refine ⟨_, h, rfl, rfl, rfl, rfl, ⟨pts, rfl, ?_⟩⟩
                    intro hbres _
                    exact _calculate_bezier_ok_ne_nil _ _ _ hbres hcalc
                · rename_i hlast
                  cases heq
                  refine ⟨_, h, rfl, rfl, rfl, rfl, ⟨[], by simp, ?_⟩⟩
                  intro _ hne
                  exact absurd (List.getLast?_eq_none_iff.mp hlast) hne

theorem process_row_step (mode : Mode) (bres : Nat) (ib : Bool) (toks : List ℚ) (s s2 : GPState)
    (h : _process_row mode bres ib toks s = Except.ok s2) : StepLists s s2 := by
  obtain ⟨mid, happ, _, _, hcl, hpl, _⟩ := process_row_geom mode bres ib toks s s2 h
  exact StepLists.of_eq_lists hcl hpl (applySplitOrMerge_step _ _ _ _ _ happ)

theorem chain_loop_inv (mode : Mode) (bres : Nat) :
    ∀ (fuel : Nat) (first : Option (Row × Bool)) (s r : GPState) (more : Bool),
    chain_loop mode bres fuel first s = some (Except.ok (r, more)) → ListsInv s → ListsInv r := by
  intro fuel
  induction fuel with
  | zero => intro first s r more h; exact Option.noConfusion h
  | succ fuel ih =>
    intro first s r more h hi
    rw [chain_loop] at h
    split at h
    · simp only [Option.some.injEq, Except.ok.injEq, Prod.mk.injEq] at h
      rw [← h.1]
      exact hi
    · split at h
      · -- LINE_SEGMENT
        split at h
        · simp at h
        · rename_i s3 hok
          exact ih _ _ _ _ h (StepLists.inv (process_row_step _ _ _ _ _ _ hok) hi)
      · -- LINE_CURVE
        split at h
        · simp at h
        · rename_i s3 hok
          exact ih _ _ _ _ h (StepLists.inv (process_row_step _ _ _ _ _ _ hok) hi)
      · -- RING_SEGMENT
        split at h
        · simp at h
        · rename_i s3 hok
          split at h
          · simp at h
          · rename_i s4 hok2
            simp only [Option.some.injEq, Except.ok.injEq, Prod.mk.injEq] at h
            rw [← h.1]
            exact StepLists.inv (process_row_step _ _ _ _ _ _ hok2)
              (StepLists.inv (process_row_step _ _ _ _ _ _ hok) hi)
      · -- RING_CURVE
        split at h
        · simp at h
        · rename_i s3 hok
          split at h
          · simp at h
          · rename_i s4 hok2
            simp only [Option.some.injEq, Except.ok.injEq, Prod.mk.injEq] at h
            rw [← h.1]
            exact StepLists.inv (process_row_step _ _ _ _ _ _ hok2)
              (StepLists.inv (process_row_step _ _ _ _ _ _ hok) hi)
      · -- END_SEGMENT
        split at h
        · simp at h
        · rename_i s3 hok
          simp only [Option.some.injEq, Except.ok.injEq, Prod.mk.injEq] at h
          rw [← h.1]
          exact StepLists.inv (process_row_step _ _ _ _ _ _ hok) hi
      · -- END_CURVE
        split at h
        · simp at h
        · rename_i s3 hok
          simp only [Option.some.injEq, Except.ok.injEq, Prod.mk.injEq] at h
          rw [← h.1]
          exact StepLists.inv (process_row_step _ _ _ _ _ _ hok) hi
      · -- OTHER
        split at h
        · simp at h
        · simp only [Option.some.injEq, Except.ok.injEq, Prod.mk.injEq] at h
          rw [← h.1]
          exact hi

theorem while_loop_inv (mode : Mode) (bres : Nat) (chain_fuel : Nat) :
    ∀ (fuel : Nat) (s r : GPState),
    while_loop mode bres chain_fuel fuel s = some (Except.ok r) → ListsInv s → ListsInv r := by
  intro fuel
  induction fuel with
  | zero => intro s r h; exact Option.noConfusion h
  | succ fuel ih =>
    intro s r h hi
    rw [while_loop] at h
    split at h
    · exact Option.noConfusion h
    · simp at h
    · rename_i s1 more hchain
      have h1 : ListsInv s1 := chain_loop_inv mode bres chain_fuel none _ s1 more hchain hi
      have h2 : ListsInv (_finish_segment s1) := StepLists.inv (finish_segment_step s1) h1
      split at h
      · exact ih _ _ h h2
      · simp only [Option.some.injEq, Except.ok.injEq] at h
        rw [← h]
        exact h2

theorem applySplitOrMerge_split (p l : Option ℚ) (s s2 : GPState)
    (h : applySplitOrMerge Mode.line p l s = Except.ok s2)
    (hc : split_condition p l s.properties) (hn : has_next s.it = true) :
    s2.coordinates = [] ∧ s2.properties = Props.empty ∧
    s2.it = BIterator.mk s.it.seq (s.it.idx - 1) ∧
    (1 < s.coordinates.length →
      s2.coordinates_list = s.coordinates_list ++ [dedup_consecutive none s.coordinates] ∧
      s2.properties_list = s.properties_list ++ [s.properties]) := by
  unfold applySplitOrMerge at h
  rw [if_pos (⟨rfl, hc⟩ : Mode.line = Mode.line ∧ split_condition p l s.properties)] at h
  rw [if_pos hn] at h
  split at h
  · exact Except.noConfusion h
  · rename_i it2 hun
    cases h
    unfold unnext at hun
    split at hun
    · exact Except.noConfusion hun
    · cases hun
      refine ⟨rfl, rfl, rfl, ?_⟩
      intro hlen
      simp only [_start_segment, _finish_segment]
      rw [if_pos hlen]
      exact ⟨rfl, rfl⟩

theorem applySplitOrMerge_polygon (p l : Option ℚ) (s : GPState) :
    applySplitOrMerge Mode.polygon p l s =
      Except.ok { s with properties := merge_props p l s.properties } := by
  unfold applySplitOrMerge
  rw [if_neg (fun hcond => Mode.noConfusion hcond.1)]

theorem process_row_insufficient_straight (mode : Mode) (bres : Nat) (toks : List ℚ)
    {s : GPState} (hlen : toks.length ≤ 2) :
    _process_row mode bres false toks s = Except.error PyErr.index_error_out_of_range := by
  rcases toks with _ | ⟨a, _ | ⟨b, rest⟩⟩
  · rfl
  · rfl
  · have hr : rest = [] := by
      rcases rest with _ | ⟨x, r⟩
      · rfl
      · simp at hlen
    subst hr
    rfl

theorem process_row_insufficient_curve (mode : Mode) (bres : Nat) (toks : List ℚ)
    {s : GPState} (hlen : toks.length ≤ 4) :
    _process_row mode bres true toks s = Except.error PyErr.index_error_out_of_range := by
  rcases toks with _ | ⟨a, _ | ⟨b, _ | ⟨c, _ | ⟨d, rest⟩⟩⟩⟩
  · rfl
  · rfl
  · rfl
  · rfl
  · have hr : rest = [] := by
      rcases rest with _ | ⟨x, r⟩
      · rfl
      · simp at hlen
    subst hr
    rfl

theorem bnext_start {α : Type} (a : α) (l : List α) :
    bnext (BIterator.mk (a :: l) (-1)) = some (a, BIterator.mk (a :: l) 0) := by
  unfold bnext
  rw [if_pos]
  · rfl
  · simp

theorem get_paths_insufficient (code : RowCode) (toks : List ℚ) (rest : List Row)
    (bres : Nat) (mode : Mode) (fuel : Nat)
    (hins : insufficient_tokens code toks) (hfuel : 0 < fuel) :
    get_paths (BIterator.mk (Row.mk code toks :: rest) (-1)) bres mode fuel =
      some (Except.error PyErr.index_error_out_of_range) := by
  cases fuel with
  | zero => exact absurd hfuel (lt_irrefl 0)
  | succ m =>
    obtain ⟨hother, hlen⟩ := hins
    unfold get_paths
    rw [while_loop, chain_loop]
    rw [show (_start_segment { init_state (BIterator.mk (Row.mk code toks :: rest) (-1)) with
          temp_bezier_nodes := [], in_bezier := false }).it =
        BIterator.mk (Row.mk code toks :: rest) (-1) from rfl]
    rw [bnext_start]
    cases code with
    | LINE_SEGMENT =>
      dsimp only
      rw [process_row_insufficient_straight mode bres toks hlen]
    | LINE_CURVE =>
      dsimp only
      rw [process_row_insufficient_curve mode bres toks hlen]
    | RING_SEGMENT =>
      dsimp only
      rw [process_row_insufficient_straight mode bres toks hlen]
    | RING_CURVE =>
      dsimp only
      rw [process_row_insufficient_curve mode bres toks hlen]
    | END_SEGMENT =>
      dsimp only
      rw [process_row_insufficient_straight mode bres toks hlen]
    | END_CURVE =>
      dsimp only
      rw [process_row_insufficient_curve mode bres toks hlen]
    | OTHER => exact absurd rfl hother

theorem get_paths_inv (it : BIterator Row) (bres : Nat) (mode : Mode) (fuel : Nat)
    (cs : List (List Point)) (ps : List Props)
    (h : get_paths it bres mode fuel = some (Except.ok (cs, ps))) :
    cs.length = ps.length ∧ ∀ c ∈ cs, List.Chain' (fun a b => a ≠ b) c := by
  unfold get_paths at h
  split at h
  · exact Option.noConfusion h
  · simp at h
  · rename_i s hrun
    have hinv : ListsInv s :=
      while_loop_inv mode bres fuel fuel (init_state it) s hrun ⟨rfl, by simp [init_state]⟩
    simp only [Option.some.injEq, Except.ok.injEq, Prod.mk.injEq] at h
    rw [← h.1, ← h.2]
    exact hinv


/-- C1 (as frozen, refuted): the attribute-split is claimed for EVERY
record carrying a differing attribute value, but the source guards the
split with `row_iterator.has_next()` (geometry.py:96, 160).  The guard is
observable when the differing record is a ring-closing record that is the
LAST record of the sequence: the line-mode input below has a ring-closing
row at (2,0) with painted 2 while the accumulator holds painted 1.  The
frozen claim predicts that the current path [(0,0),(1,0),(2,0)] is
finalized and emitted with painted 1, and a fresh accumulator seeded with
(2,0) and painted 2 receives the re-processed first record (0,0) and is
emitted as a second two-point PathResult with painted 2 — two PathResults
in total.  The code instead suppresses the split (has_next() is false) and
does not merge painted 2 either: it emits ONE PathResult
[(0,0),(1,0),(2,0),(0,0)] whose properties still say painted 1, and no
PathResult carrying painted 2 exists. -/
theorem C1_counterexample :
    get_paths (BIterator.mk
      [Row.mk RowCode.LINE_SEGMENT [111, 0, 0],
       Row.mk RowCode.LINE_SEGMENT [111, 0, 1, 1],
       Row.mk RowCode.RING_SEGMENT [113, 0, 2, 2]] (-1)) 16 Mode.line 10 =
    some (Except.ok ([[((0:ℚ),(0:ℚ)), (1,0), (2,0), (0,0)]], [Props.mk (some 1) none])) := by
  decide

/-- C1 (amended): when a record carries a painted or lighting line type
that differs from a value already recorded in the accumulator AND the
cursor still has a further record, processing that record finalizes and
emits the current path, resets to an EMPTY accumulator with empty
attributes (the just-processed point is re-added only because the cursor
is stepped back one record and the record is re-read), and decrements the
cursor index.  The five-record example of the claim yields exactly 2
PathResults whose coordinate lists share the split coordinate (3,0). -/
theorem C1_attribute_split_amended :
    (∀ (bres : Nat) (ib : Bool) (toks : List ℚ) (s s2 : GPState),
      _process_row Mode.line bres ib toks s = Except.ok s2 →
      split_condition (painted_token ib toks) (lighting_token ib toks) s.properties →
      has_next s.it = true →
      0 < bres → s.coordinates ≠ [] →
      s2.coordinates = [] ∧ s2.properties = Props.empty ∧
      s2.it = BIterator.mk s.it.seq (s.it.idx - 1) ∧
      s2.coordinates_list.length = s.coordinates_list.length + 1 ∧
      s2.properties_list = s.properties_list ++ [s.properties]) ∧
    get_paths (BIterator.mk
      [Row.mk RowCode.LINE_SEGMENT [111, 0, 0],
       Row.mk RowCode.LINE_SEGMENT [111, 0, 1, 1],
       Row.mk RowCode.LINE_SEGMENT [111, 0, 2, 1],
       Row.mk RowCode.LINE_SEGMENT [111, 0, 3, 2],
       Row.mk RowCode.END_SEGMENT [115, 0, 4, 2]] (-1)) 16 Mode.line 10 =
    some (Except.ok
      ([[((0:ℚ),(0:ℚ)), (1,0), (2,0), (3,0)], [(3,0), (4,0)]],
       [Props.mk (some 1) none, Props.mk (some 2) none])) := by
  constructor
  · intro bres ib toks s s2 h hsplit hnext hbres hne
    obtain ⟨mid, happ, hprops, hit, hcl, hpl, pts, hco, hpts⟩ :=
      process_row_geom Mode.line bres ib toks s s2 h
    have hsplit2 : split_condition (painted_token ib toks) (lighting_token ib toks)
        mid.properties := by rw [hprops]; exact hsplit
    have hnext2 : has_next mid.it = true := by rw [hit]; exact hnext
    obtain ⟨hc0, hp0, hit0, hemit⟩ := applySplitOrMerge_split _ _ _ _ happ hsplit2 hnext2
    have hlen : 1 < mid.coordinates.length := by
      rw [hco, List.length_append]
      have h1 : 0 < s.coordinates.length := List.length_pos.mpr hne
      have h2 : 0 < pts.length := List.length_pos.mpr (hpts hbres hne)
      omega
    obtain ⟨hcl2, hpl2⟩ := hemit hlen
    refine ⟨hc0, hp0, ?_, ?_, ?_⟩
    · rw [hit0, hit]
    · rw [hcl2, hcl]
      simp
    · rw [hpl2, hpl, hprops]
  · decide

/-- C1 witness: a concrete state mid-chain with painted 1 recorded meets
a straight record carrying painted 2 while a further record remains; the
split fires as the amended claim states. -/
theorem C1_attribute_split_amended_witness :
    (GPState.mk (BIterator.mk [Row.mk RowCode.OTHER [], Row.mk RowCode.OTHER []] (-1)) []
        Props.empty [] false [[((0:ℚ),(0:ℚ)), (1,0)]] [Props.mk (some 1) none]).coordinates = [] ∧
    (GPState.mk (BIterator.mk [Row.mk RowCode.OTHER [], Row.mk RowCode.OTHER []] (-1)) []
        Props.empty [] false [[((0:ℚ),(0:ℚ)), (1,0)]] [Props.mk (some 1) none]).properties_list =
      (GPState.mk (BIterator.mk [Row.mk RowCode.OTHER [], Row.mk RowCode.OTHER []] 0)
        [((0:ℚ),(0:ℚ))] (Props.mk (some 1) none) [] false [] []).properties_list ++
        [Props.mk (some 1) none] := by
  have h := C1_attribute_split_amended.1 16 false [111, 0, 1, 2]
    (GPState.mk (BIterator.mk [Row.mk RowCode.OTHER [], Row.mk RowCode.OTHER []] 0)
      [((0:ℚ),(0:ℚ))] (Props.mk (some 1) none) [] false [] [])
    (GPState.mk (BIterator.mk [Row.mk RowCode.OTHER [], Row.mk RowCode.OTHER []] (-1)) []
      Props.empty [] false [[((0:ℚ),(0:ℚ)), (1,0)]] [Props.mk (some 1) none])
    (by decide) (by decide) (by decide) (by decide) (by decide)
  exact ⟨h.1, h.2.2.2.2⟩

/-- C2: the claim says every non-degenerate curve evaluation appends
exactly R points for caller resolution R, regardless of which record kind
triggers it.  The source contradicts its own `TODO: pass resolution
argument` comment at geometry.py:73-74: when a STRAIGHT record completes a
pending curve continuation, `_calculate_bezier` is called without the
resolution argument, so the module default 16 is used.  Here, with caller
resolution R = 4: a curve row at (0,0) with control point (1,1) leaves a
pending continuation, and the straight row at (2,0) completing it appends
16 sample points, not 4. -/
theorem C2_default_resolution_bug :
    _process_row Mode.line 4 true [112, 0, 0, 1, 1] (init_state (BIterator.mk [] (-1))) =
      Except.ok { init_state (BIterator.mk [] (-1)) with
        temp_bezier_nodes := [((0:ℚ),(0:ℚ)), (1,1)], in_bezier := true } ∧
    (match _process_row Mode.line 4 false [115, 0, 2]
        { init_state (BIterator.mk [] (-1)) with
          temp_bezier_nodes := [((0:ℚ),(0:ℚ)), (1,1)], in_bezier := true } with
      | Except.ok s2 => s2.coordinates.length
      | Except.error _ => 0) = _DEFAULT_BEZIER_RESOLUTION ∧
    _DEFAULT_BEZIER_RESOLUTION ≠ 4 := by
  decide

/-- C3 (as frozen, refuted): the claim says a PathResult is emitted only
if the DEDUPLICATED list has more than 1 point (line mode).  The source
checks `len(coordinates) > 1` on the RAW accumulated list BEFORE
deduplicating (geometry.py:50) and then appends unconditionally: a
line-mode chain of two identical points (0,0) dedups to one point yet
yields ONE single-point PathResult, not zero. -/
theorem C3_counterexample :
    get_paths (BIterator.mk
      [Row.mk RowCode.LINE_SEGMENT [111, 0, 0],
       Row.mk RowCode.END_SEGMENT [115, 0, 0]] (-1)) 16 Mode.line 5 =
    some (Except.ok ([[((0:ℚ),(0:ℚ))]], [Props.empty])) := by
  decide

/-- C3 (amended): finishing a segment first checks that the RAW
accumulated list has more than one point — in both modes, with no
polygon-specific threshold at this level — and only then deduplicates and
emits unconditionally; a two-point chain collapsing to one distinct point
still yields a single-point PathResult from `get_paths`.  The mode
thresholds live in the callers of classes.py, applied to the deduplicated
lists: `LinearFeature` keeps lists with more than 1 point,
`Boundary`/`Pavement` keep lists with more than 2, so the single-point
path produces zero features downstream. -/
theorem C3_finish_threshold_amended :
    (∀ s : GPState, ¬ 1 < s.coordinates.length → _finish_segment s = s) ∧
    (∀ s : GPState, 1 < s.coordinates.length →
      _finish_segment s = { s with
        coordinates_list := s.coordinates_list ++ [dedup_consecutive none s.coordinates],
        properties_list := s.properties_list ++ [s.properties] }) ∧
    get_paths (BIterator.mk
      [Row.mk RowCode.LINE_SEGMENT [111, 1, 2],
       Row.mk RowCode.END_SEGMENT [115, 1, 2]] (-1)) 16 Mode.line 5 =
      some (Except.ok ([[((2:ℚ),(1:ℚ))]], [Props.empty])) ∧
    linear_feature_paths [[((2:ℚ),(1:ℚ))]] [Props.empty] = [] ∧
    boundary_coordinates_list [[((2:ℚ),(1:ℚ))]] = [] := by
  refine ⟨?_, ?_, by decide, by decide, by decide⟩
  · intro s hlen
    unfold _finish_segment
    rw [if_neg hlen]
  · intro s hlen
    unfold _finish_segment
    rw [if_pos hlen]

/-- C3 witness: the finish threshold facts applied to concrete states: an
empty accumulator is left unchanged, and a two-point accumulator emits its
deduplicated list. -/
theorem C3_finish_threshold_amended_witness :
    _finish_segment (init_state (BIterator.mk [] (-1))) = init_state (BIterator.mk [] (-1)) ∧
    _finish_segment { init_state (BIterator.mk [] (-1)) with
        coordinates := [((0:ℚ),(0:ℚ)), (1,1)] } =
      GPState.mk (BIterator.mk [] (-1)) [((0:ℚ),(0:ℚ)), (1,1)] Props.empty [] false
        [[((0:ℚ),(0:ℚ)), (1,1)]] [Props.empty] := by
  constructor
  · exact C3_finish_threshold_amended.1 (init_state (BIterator.mk [] (-1))) (by decide)
  · exact (C3_finish_threshold_amended.2.1
      { init_state (BIterator.mk [] (-1)) with coordinates := [((0:ℚ),(0:ℚ)), (1,1)] }
      (by decide)).trans (by decide)

/-- C4 (as frozen, refuted): the claim says polygon-mode PathResults never
record painted or lighting line types.  Only the SPLIT is gated on line
mode (geometry.py:84, 148); the merge branch runs in polygon mode too, so
a polygon chain whose records carry a painted line type 1 emits a
PathResult whose attributes contain it. -/
theorem C4_counterexample :
    get_paths (BIterator.mk
      [Row.mk RowCode.LINE_SEGMENT [111, 0, 0, 1],
       Row.mk RowCode.END_SEGMENT [115, 0, 10, 1]] (-1)) 16 Mode.polygon 5 =
    some (Except.ok ([[((0:ℚ),(0:ℚ)), (10,0)]], [Props.mk (some 1) none])) := by
  decide

/-- C4 (amended): in polygon mode the attribute-driven SPLIT never fires —
processing a record leaves the output lists and the cursor untouched — but
attribute values present on records ARE merged into the accumulator
properties and so can appear on emitted PathResults.  (The polygon callers
`Boundary`/`Pavement` in classes.py simply discard the properties list.) -/
theorem C4_polygon_attributes_amended :
    ∀ (bres : Nat) (ib : Bool) (toks : List ℚ) (s s2 : GPState),
      _process_row Mode.polygon bres ib toks s = Except.ok s2 →
      s2.coordinates_list = s.coordinates_list ∧
      s2.properties_list = s.properties_list ∧
      s2.it = s.it ∧
      s2.properties = merge_props (painted_token ib toks) (lighting_token ib toks) s.properties := by
  intro bres ib toks s s2 h
  obtain ⟨mid, happ, hprops, hit, hcl, hpl, _⟩ :=
    process_row_geom Mode.polygon bres ib toks s s2 h
  rw [applySplitOrMerge_polygon] at happ
  cases happ
  exact ⟨hcl, hpl, hit, by rw [hprops]⟩

/-- C4 witness: a polygon-mode straight record carrying painted type 7 is
merged into the accumulator attributes, with lists and cursor untouched. -/
theorem C4_polygon_attributes_amended_witness :
    (GPState.mk (BIterator.mk [] (-1)) [((3:ℚ),(2:ℚ))] (Props.mk (some 7) none) [] false [] []).coordinates_list =
      (init_state (BIterator.mk [] (-1))).coordinates_list ∧
    (GPState.mk (BIterator.mk [] (-1)) [((3:ℚ),(2:ℚ))] (Props.mk (some 7) none) [] false [] []).properties =
      merge_props (painted_token false [111, 2, 3, 7]) (lighting_token false [111, 2, 3, 7])
        (init_state (BIterator.mk [] (-1))).properties := by
  have h := C4_polygon_attributes_amended 16 false [111, 2, 3, 7]
    (init_state (BIterator.mk [] (-1)))
    (GPState.mk (BIterator.mk [] (-1)) [((3:ℚ),(2:ℚ))] (Props.mk (some 7) none) [] false [] [])
    (by decide)
  exact ⟨h.1, h.2.2.2⟩

/-- C5: a ring-closing record is processed, then the first record of the
chain is re-processed as a straight or curve continuation matching its
original kind, then the chain loop ends.  Conjunct 1: for EVERY
polygon-mode chain [Start p1, Segment p2, RingSegment p3] with
pairwise-distinct neighbouring points, reconstruction yields exactly one
PathResult [p1, p2, p3, p1], closed back to the start point.  Conjunct 2:
for EVERY chain [Start p1, RingCurve p3] the loop processes the ring
record as a CURVE (evaluating the quadratic from p1 through the mirrored
control point into p3), re-processes the straight first record as the
straight completion of the pending continuation (quadratic back into p1),
and stops with the ring flag set and the cursor on the ring record.
Conjunct 3: for EVERY chain [LineCurve p1, RingCurve p3] the first record
is of curve kind and is re-processed as a CURVE continuation: the loop
emits the cubic from p1 into p3 and then the closing cubic from p3 back
into p1, stopping likewise.  Conjunct 4: at resolution at least 2 that
curve-closed coordinate list starts and ends at the start anchor p1.
Conjunct 5: the concrete chain [Start(0,0), Segment(10,0), RingClose(5,5)]
yields one PathResult whose coordinate list starts and ends at (0,0). -/
theorem C5_ring_closure :
    (∀ (la1 lo1 la2 lo2 la3 lo3 c1 c2 c3 : ℚ) (bres fuel : Nat),
      3 ≤ fuel →
      ((lo1, la1) : Point) ≠ (lo2, la2) →
      ((lo2, la2) : Point) ≠ (lo3, la3) →
      ((lo3, la3) : Point) ≠ (lo1, la1) →
      get_paths (BIterator.mk
        [Row.mk RowCode.LINE_SEGMENT [c1, la1, lo1],
         Row.mk RowCode.LINE_SEGMENT [c2, la2, lo2],
         Row.mk RowCode.RING_SEGMENT [c3, la3, lo3]] (-1)) bres Mode.polygon fuel =
      some (Except.ok ([[(lo1, la1), (lo2, la2), (lo3, la3), (lo1, la1)]], [Props.empty]))) ∧
    (∀ (la1 lo1 c1 la3 lo3 ba3 bo3 c3 : ℚ) (bres fuel : Nat),
      chain_loop Mode.polygon bres (fuel + 2) none
        (init_state (BIterator.mk
          [Row.mk RowCode.LINE_SEGMENT [c1, la1, lo1],
           Row.mk RowCode.RING_CURVE [c3, la3, lo3, ba3, bo3]] (-1))) =
      some (Except.ok (GPState.mk
        (BIterator.mk
          [Row.mk RowCode.LINE_SEGMENT [c1, la1, lo1],
           Row.mk RowCode.RING_CURVE [c3, la3, lo3, ba3, bo3]] 1)
        ((lo1, la1) ::
          (_calculate_quadratic_bezier (lo1, la1)
              (lo3 - (bo3 - lo3), la3 - (ba3 - la3)) (lo3, la3) bres ++
           _calculate_quadratic_bezier (lo3, la3) (bo3, ba3) (lo1, la1) 16))
        Props.empty [] false [] [], true))) ∧
    (∀ (la1 lo1 ba1 bo1 c1 la3 lo3 ba3 bo3 c3 : ℚ) (bres fuel : Nat),
      chain_loop Mode.polygon bres (fuel + 2) none
        (init_state (BIterator.mk
          [Row.mk RowCode.LINE_CURVE [c1, la1, lo1, ba1, bo1],
           Row.mk RowCode.RING_CURVE [c3, la3, lo3, ba3, bo3]] (-1))) =
      some (Except.ok (GPState.mk
        (BIterator.mk
          [Row.mk RowCode.LINE_CURVE [c1, la1, lo1, ba1, bo1],
           Row.mk RowCode.RING_CURVE [c3, la3, lo3, ba3, bo3]] 1)
        (_calculate_cubic_bezier (lo1, la1) (bo1, ba1)
            (lo3 - (bo3 - lo3), la3 - (ba3 - la3)) (lo3, la3) bres ++
         _calculate_cubic_bezier (lo3, la3) (bo3, ba3)
            (lo1 - (bo1 - lo1), la1 - (ba1 - la1)) (lo1, la1) bres)
        Props.empty [(lo1, la1), (bo1, ba1)] true [] [], true))) ∧
    (∀ (p1 b1 m3 p3 b3 m1 : Point) (bres : Nat), 2 ≤ bres →
      (_calculate_cubic_bezier p1 b1 m3 p3 bres ++
        _calculate_cubic_bezier p3 b3 m1 p1 bres).head? = some p1 ∧
      (_calculate_cubic_bezier p1 b1 m3 p3 bres ++
        _calculate_cubic_bezier p3 b3 m1 p1 bres).getLast? = some p1) ∧
    get_paths (BIterator.mk
      [Row.mk RowCode.LINE_SEGMENT [111, 0, 0],
       Row.mk RowCode.LINE_SEGMENT [111, 0, 10],
       Row.mk RowCode.RING_SEGMENT [113, 5, 5]] (-1)) 16 Mode.polygon 5 =
    some (Except.ok ([[((0:ℚ),(0:ℚ)), (10,0), (5,5), (0,0)]], [Props.empty])) := by
  refine ⟨?_, ?_, ?_, ?_, by decide⟩
  · intro la1 lo1 la2 lo2 la3 lo3 c1 c2 c3 bres fuel hfuel h12 h23 h31
    obtain ⟨m, rfl⟩ : ∃ m, fuel = m + 3 := ⟨fuel - 3, by omega⟩
    simp only [get_paths, while_loop, chain_loop, bnext, init_state, _start_segment,
      _process_row, tokAt, applySplitOrMerge, merge_props, _finish_segment,
      first_row_info, row_is_bezier, has_next, unnext, List.get?, dedup_consecutive,
      List.length_cons, List.length_nil, List.length_singleton, Nat.cast_ofNat,
      Nat.cast_zero, Nat.cast_one, List.cons_append, List.nil_append, List.append_nil,
      Nat.reduceAdd, Int.reduceAdd, Int.reduceNeg, Int.reduceLT, Int.reduceToNat,
      Int.reduceSub, Nat.reduceLT, reduceIte, reduceCtorEq,
      and_false, false_and, and_true, true_and, if_true, if_false,
      decide_False, decide_True, Bool.false_or, Bool.or_false, Bool.or_self,
      Props.empty, Ne.symm h12, Ne.symm h23, Ne.symm h31]
  · intro la1 lo1 c1 la3 lo3 ba3 bo3 c3 bres fuel
    simp only [chain_loop, bnext, init_state, _start_segment, _process_row, tokAt,
      applySplitOrMerge, merge_props, first_row_info, row_is_bezier, _calculate_bezier,
      _DEFAULT_BEZIER_RESOLUTION, Props.empty,
      List.get?, List.length_cons, List.length_nil, Nat.cast_ofNat,
      Nat.reduceAdd, Int.reduceAdd, Int.reduceNeg, Int.reduceLT, Int.reduceToNat,
      Int.reduceSub, Nat.reduceLT, reduceIte, reduceCtorEq,
      and_false, false_and, and_true, true_and, if_true, if_false,
      decide_False, decide_True, Bool.false_or, Bool.or_false, Bool.or_self,
      List.getLast?_singleton, List.getLast?_nil,
      List.cons_append, List.nil_append, List.append_nil]
  · intro la1 lo1 ba1 bo1 c1 la3 lo3 ba3 bo3 c3 bres fuel
    simp only [chain_loop, bnext, init_state, _start_segment, _process_row, tokAt,
      applySplitOrMerge, merge_props, first_row_info, row_is_bezier, _calculate_bezier,
      _DEFAULT_BEZIER_RESOLUTION, Props.empty,
      List.get?, List.length_cons, List.length_nil, Nat.cast_ofNat,
      Nat.reduceAdd, Int.reduceAdd, Int.reduceNeg, Int.reduceLT, Int.reduceToNat,
      Int.reduceSub, Nat.reduceLT, reduceIte, reduceCtorEq,
      and_false, false_and, and_true, true_and, if_true, if_false,
      decide_False, decide_True, Bool.false_or, Bool.or_false, Bool.or_self,
      List.getLast?_singleton, List.getLast?_nil,
      List.cons_append, List.nil_append, List.append_nil]
  · intro p1 b1 m3 p3 b3 m1 bres hb
    constructor
    · have h1 := _calculate_cubic_bezier_head p1 b1 m3 p3 bres (by omega)
      cases hc : _calculate_cubic_bezier p1 b1 m3 p3 bres with
      | nil => rw [hc] at h1; exact absurd h1 (by simp)
      | cons a t =>
        rw [hc] at h1
        simp at h1
        rw [h1]
        rfl
    · rw [List.getLast?_append_of_ne_nil _
        (_calculate_cubic_bezier_ne_nil p3 b3 m1 p1 bres (by omega))]
      exact _calculate_cubic_bezier_getLast p3 b3 m1 p1 bres hb

/-- C5 witness: a ring chain through (1,2), (3,4), (5,6) closes back to
(1,2), at resolution 7 with fuel 9. -/
theorem C5_ring_closure_witness :
    get_paths (BIterator.mk
      [Row.mk RowCode.LINE_SEGMENT [111, 2, 1],
       Row.mk RowCode.LINE_SEGMENT [111, 4, 3],
       Row.mk RowCode.RING_SEGMENT [113, 6, 5]] (-1)) 7 Mode.polygon 9 =
    some (Except.ok ([[((1:ℚ),(2:ℚ)), (3,4), (5,6), (1,2)]], [Props.empty])) :=
  C5_ring_closure.1 2 1 4 3 6 5 111 111 113 7 9 (by decide) (by decide) (by decide) (by decide)

/-- C6 (as frozen, refuted): the claim says `unnext` fails whenever called
twice without an intervening `next()` and that the cursor never supports
more than one level of pushback.  In the source the underflow check only
guards the index falling below `-1` (iterators.py:21): after two records
have been consumed, two successive `unnext` calls BOTH succeed. -/
theorem C6_counterexample :
    bnext (BIterator.mk [Row.mk RowCode.LINE_SEGMENT [], Row.mk RowCode.OTHER []] (-1)) =
      some (Row.mk RowCode.LINE_SEGMENT [],
            BIterator.mk [Row.mk RowCode.LINE_SEGMENT [], Row.mk RowCode.OTHER []] 0) ∧
    bnext (BIterator.mk [Row.mk RowCode.LINE_SEGMENT [], Row.mk RowCode.OTHER []] 0) =
      some (Row.mk RowCode.OTHER [],
            BIterator.mk [Row.mk RowCode.LINE_SEGMENT [], Row.mk RowCode.OTHER []] 1) ∧
    unnext (BIterator.mk [Row.mk RowCode.LINE_SEGMENT [], Row.mk RowCode.OTHER []] 1) =
      Except.ok (BIterator.mk [Row.mk RowCode.LINE_SEGMENT [], Row.mk RowCode.OTHER []] 0) ∧
    unnext (BIterator.mk [Row.mk RowCode.LINE_SEGMENT [], Row.mk RowCode.OTHER []] 0) =
      Except.ok (BIterator.mk [Row.mk RowCode.LINE_SEGMENT [], Row.mk RowCode.OTHER []] (-1)) := by
  decide

/-- C6 (amended): `unnext` un-consumes the most recently returned record —
after a successful `bnext` it restores the iterator exactly — and fails
with the underflow `IndexError` exactly when the index would fall below
the start position, i.e. when nothing is currently consumed; with k
records consumed, k successive pushbacks succeed, so the cursor supports
as many pushback levels as records consumed, not just one. -/
theorem C6_unnext_amended :
    ∀ (it : BIterator Row),
      (it.idx < 0 → unnext it = Except.error PyErr.index_error_go_back) ∧
      (0 ≤ it.idx → unnext it = Except.ok (BIterator.mk it.seq (it.idx - 1))) ∧
      (-1 ≤ it.idx → ∀ (r : Row) (it2 : BIterator Row),
        bnext it = some (r, it2) → unnext it2 = Except.ok it) := by
  intro it
  obtain ⟨seq, idx⟩ := it
  refine ⟨?_, ?_, ?_⟩
  · intro h
    unfold unnext
    rw [if_pos (by omega)]
  · intro h
    unfold unnext
    rw [if_neg (by omega)]
  · intro hinv r it2 hb
    have hinv2 : -1 ≤ idx := hinv
    unfold bnext at hb
    split at hb
    · split at hb
      · rename_i hget
        cases hb
        unfold unnext
        rw [if_neg (by show ¬(idx + 1 - 1 < -1); omega)]
        have harith : idx + 1 - 1 = idx := by omega
        rw [harith]
      · exact Option.noConfusion hb
    · exact Option.noConfusion hb

/-- C6 witness: with two records consumed (index 1), `unnext` succeeds and
steps the index back to 0. -/
theorem C6_unnext_amended_witness :
    unnext (BIterator.mk [Row.mk RowCode.OTHER ([] : List ℚ), Row.mk RowCode.OTHER []] 1) =
      Except.ok (BIterator.mk [Row.mk RowCode.OTHER ([] : List ℚ), Row.mk RowCode.OTHER []] 0) := by
  have h := (C6_unnext_amended
    (BIterator.mk [Row.mk RowCode.OTHER ([] : List ℚ), Row.mk RowCode.OTHER []] 1)).2.1 (by decide)
  exact h

/-- C7: Bezier evaluation with identical first and last control points
returns the single-point sequence containing that shared point, for both
the quadratic and the cubic form, at every resolution. -/
theorem C7_degenerate_bezier :
    ∀ (resolution : Nat) (p0 p1 p2 : Point),
      _calculate_quadratic_bezier p0 p1 p0 resolution = [p0] ∧
      _calculate_cubic_bezier p0 p1 p2 p0 resolution = [p0] := by
  intro resolution p0 p1 p2
  constructor
  · unfold _calculate_quadratic_bezier
    rw [if_pos rfl]
  · unfold _calculate_cubic_bezier
    rw [if_pos rfl]

/-- C8: every coordinate list emitted by `get_paths` is free of
consecutive duplicate points: `_finish_segment` is the only emission site
and it filters exact consecutive duplicates before appending. -/
theorem C8_no_consecutive_duplicates :
    ∀ (it : BIterator Row) (bres : Nat) (mode : Mode) (fuel : Nat)
      (cs : List (List Point)) (ps : List Props),
      get_paths it bres mode fuel = some (Except.ok (cs, ps)) →
      ∀ c ∈ cs, List.Chain' (fun a b => a ≠ b) c :=
  fun it bres mode fuel cs ps h => (get_paths_inv it bres mode fuel cs ps h).2

/-- C8 witness: the single path reconstructed from a two-record line chain
has no consecutive duplicates. -/
theorem C8_no_consecutive_duplicates_witness :
    List.Chain' (fun a b => a ≠ b) [((0:ℚ),(0:ℚ)), (1,0)] :=
  C8_no_consecutive_duplicates
    (BIterator.mk [Row.mk RowCode.LINE_SEGMENT [111, 0, 0],
                   Row.mk RowCode.END_SEGMENT [115, 0, 1]] (-1))
    16 Mode.line 3 [[((0:ℚ),(0:ℚ)), (1,0)]] [Props.empty] (by decide)
    [((0:ℚ),(0:ℚ)), (1,0)] (by decide)

/-- C9 (as frozen, refuted): the claim says a record with insufficient
numeric fields makes reconstruction fail fast with a DESCRIPTIVE error
IDENTIFYING the offending record.  The source (geometry.py:67, 108) just
subscripts the token list, so what escapes is the generic
`IndexError: list index out of range`.  It does fail fast, but two
different malformed records produce the identical error value, so the
error cannot identify the offending record. -/
theorem C9_counterexample :
    get_paths (BIterator.mk [Row.mk RowCode.LINE_SEGMENT [111]] (-1)) 16 Mode.line 3 =
      some (Except.error PyErr.index_error_out_of_range) ∧
    get_paths (BIterator.mk [Row.mk RowCode.LINE_CURVE [112, 7, 8]] (-1)) 16 Mode.line 3 =
      some (Except.error PyErr.index_error_out_of_range) ∧
    Row.mk RowCode.LINE_SEGMENT ([111] : List ℚ) ≠ Row.mk RowCode.LINE_CURVE [112, 7, 8] :=
  ⟨by decide, by decide, by decide⟩

/-- C9 (amended): for every chain whose first record is a geometry row
with insufficient tokens (a straight row missing latitude/longitude, or a
curve row missing its control-point tokens), reconstruction fails fast
with an uncaught IndexError — but it is the generic list-index error,
which does not identify the offending record. -/
theorem C9_fail_fast_amended :
    ∀ (code : RowCode) (toks : List ℚ) (rest : List Row) (bres : Nat) (mode : Mode) (fuel : Nat),
      insufficient_tokens code toks → 0 < fuel →
      get_paths (BIterator.mk (Row.mk code toks :: rest) (-1)) bres mode fuel =
        some (Except.error PyErr.index_error_out_of_range) :=
  fun code toks rest bres mode fuel hins hfuel =>
    get_paths_insufficient code toks rest bres mode fuel hins hfuel

/-- C9 witness: a straight row with a lone token makes reconstruction
return the index error. -/
theorem C9_fail_fast_amended_witness :
    get_paths (BIterator.mk [Row.mk RowCode.LINE_SEGMENT [111, 5], Row.mk RowCode.OTHER []] (-1))
        8 Mode.polygon 4 =
      some (Except.error PyErr.index_error_out_of_range) :=
  C9_fail_fast_amended RowCode.LINE_SEGMENT [111, 5] [Row.mk RowCode.OTHER []] 8 Mode.polygon 4
    (by constructor <;> decide) (by decide)

/-- C10: whenever `get_paths` returns normally, the coordinate list and
the properties list it returns have equal length — the only site that
grows them appends to both together — so the final
`assert len(coordinates_list) == len(properties_list)` of the source can
never fail. -/
theorem C10_parallel_lists :
    ∀ (it : BIterator Row) (bres : Nat) (mode : Mode) (fuel : Nat)
      (cs : List (List Point)) (ps : List Props),
      get_paths it bres mode fuel = some (Except.ok (cs, ps)) →
      cs.length = ps.length :=
  fun it bres mode fuel cs ps h => (get_paths_inv it bres mode fuel cs ps h).1

/-- C10 witness: the lists returned for a concrete two-record chain have
equal length. -/
theorem C10_parallel_lists_witness :
    ([[((0:ℚ),(0:ℚ)), (2,0)]] : List (List Point)).length =
      ([Props.empty] : List Props).length :=
  C10_parallel_lists
    (BIterator.mk [Row.mk RowCode.LINE_SEGMENT [111, 0, 0],
                   Row.mk RowCode.END_SEGMENT [115, 0, 2]] (-1))
    16 Mode.line 3 [[((0:ℚ),(0:ℚ)), (2,0)]] [Props.empty] (by decide)
